import Mathlib

/-
  Verification of the multi-modal ingestion pipeline of `src/server.js`.

  The development shallowly embeds the request-handling code: byte buffers are
  `List Nat`, the filesystem and external tools (ffmpeg, pdf-parse, the remote
  AI endpoint) are explicit parameters recording what each call would return,
  and the completion events of the concurrent frame extractions are given as a
  list in completion order.  Every definition is translated from the source
  file; line numbers in the comments refer to `src/server.js`.
-/

/-- Byte buffers (`fs.readFileSync` results) are lists of byte values. -/
def ByteBuf : Type := List Nat

/-- The base64 alphabet used by `Buffer.toString` with the base64 argument. -/
def base64Alphabet : List Char :=
  "ABCDEFGHIJKLMNOPQRSTUVWXYZabcdefghijklmnopqrstuvwxyz0123456789+/".toList

/-- The base64 digit for a 6-bit value. -/
def base64Char (n : Nat) : Char := base64Alphabet.getD n '='

/-- Encode one final group of 1–3 bytes into 4 base64 characters. -/
def base64Chunk : List Nat → List Char
  | [b0] => [base64Char (b0 / 4), base64Char (b0 % 4 * 16), '=', '=']
  | [b0, b1] => [base64Char (b0 / 4), base64Char (b0 % 4 * 16 + b1 / 16),
                 base64Char (b1 % 16 * 4), '=']
  | [b0, b1, b2] => [base64Char (b0 / 4), base64Char (b0 % 4 * 16 + b1 / 16),
                     base64Char (b1 % 16 * 4 + b2 / 64), base64Char (b2 % 64)]
  | _ => []

/-- Encode a byte list into base64 characters, three bytes at a time. -/
def base64Groups : List Nat → List Char
  | b0 :: b1 :: b2 :: rest => base64Chunk [b0, b1, b2] ++ base64Groups rest
  | rest => base64Chunk rest

/-- The `Buffer.toString` base64 encoding of a byte buffer. -/
def base64Encode (bytes : List Nat) : String := String.mk (base64Groups bytes)

/-- Characters after the last dot of a character list, `none` when no dot occurs. -/
def afterLastDot : List Char → Option (List Char)
  | [] => none
  | c :: cs =>
    match afterLastDot cs with
    | some e => some e
    | none => if c = '.' then some cs else none

/-- Model of `path.extname(name).toLowerCase().substring(1)` (line 272 and line 58):
the lowercased suffix after the last dot of the name; empty when there is no dot or
when the only dot is the leading one (Node treats a leading dot as a hidden-file
marker, not an extension separator). -/
def extOf (name : String) : String :=
  match name.toList with
  | [] => ""
  | c0 :: rest =>
    if c0 = '.' ∧ (afterLastDot rest).isNone then ""
    else
      match afterLastDot (c0 :: rest) with
      | some e => String.mk (e.map Char.toLower)
      | none => ""

/-- Line 35: the constant `UPLOAD_FOLDER`, bound to the string `uploads`. -/
def UPLOAD_FOLDER : String := "uploads"

/-- Line 118: the binding of `tempDir` to `path.join` of `UPLOAD_FOLDER` and `temp_frames`.  The binding
does not mention the request or the video path at all; the unused argument makes that
request-independence explicit so it can be stated. -/
def tempDirFor (_videoPath : String) : String := UPLOAD_FOLDER ++ "/temp_frames"

/-- Line 150: the binding of `outputPath`, joining `tempDir` with `frame_`, the index, and `.jpg`. -/
def frameOutputPath (videoPath : String) (index : Nat) : String :=
  tempDirFor videoPath ++ "/frame_" ++ toString index ++ ".jpg"

/-- The `metadata.format` object of an `ffprobe` result; `duration` is absent (`undefined`) or a
number (line 133). -/
structure FfprobeFormat where
  duration : Option ℚ
  deriving DecidableEq, Repr

/-- An `ffprobe` metadata object (line 126). -/
structure FfprobeMetadata where
  format : FfprobeFormat
  deriving DecidableEq, Repr

/-- Lines 141–144: `timestamps.push((duration * (i + 1)) / (maxFrames + 1))` for
`i = 0 .. maxFrames - 1`. -/
def computeTimestamps (duration : ℚ) (maxFrames : Nat) : List ℚ :=
  (List.range maxFrames).map (fun (i : Nat) => duration * ((i : ℚ) + 1) / ((maxFrames : ℚ) + 1))

/-- How the extraction of one timestamp completes: `success bytes` is the `end` event with
the frame file readable as `bytes`; `extractError` is the ffmpeg `error` event
(line 177); `readError` is the `end` event whose `fs.readFileSync(outputPath)` throws
(caught at line 173, e.g. ffmpeg signalled end without producing the file). -/
inductive FrameOutcome where
  | success (bytes : List Nat)
  | extractError (msg : String)
  | readError (msg : String)
  deriving DecidableEq, Repr

/-- The mutable state of one `processVideoFrames` run: the `framesBase64` array, the
`processedFrames` counter, the (idempotent) promise resolution, whether
`uploads/temp_frames` still exists, and which frame files sit in it. -/
structure SamplerState where
  framesBase64 : List String
  processedFrames : Nat
  resolved : Option (List String)
  tempDirPresent : Bool
  frameFiles : List Nat
  deriving DecidableEq, Repr

/-- One completion event of `processVideoFrames` (lines 159–183).  The `end` event with a
readable file: the screenshot was written, it is read and pushed as base64, the file is
unlinked, the counter incremented, and on the last completion the temp directory is
removed and the promise resolved.  The `error` event: only the counter is incremented, and on
the last completion the promise resolves without removing the directory.  The `end` event with
an unreadable file: the catch at line 173 only logs — the counter is not incremented. -/
def stepCompletion (total : Nat) (s : SamplerState) (ev : Nat × FrameOutcome) : SamplerState :=
  match ev.2 with
  | FrameOutcome.success bytes =>
    let withFile := s.frameFiles ++ [ev.1]
    let frames := s.framesBase64 ++ [base64Encode bytes]
    let files := withFile.erase ev.1
    let p := s.processedFrames + 1
    let newResolved := match s.resolved with | some r => some r | none => some frames
    if p = total then
      { framesBase64 := frames
        processedFrames := p
        resolved := newResolved
        tempDirPresent := false
        frameFiles := files }
    else
      { s with framesBase64 := frames, processedFrames := p, frameFiles := files }
  | FrameOutcome.extractError _ =>
    let p := s.processedFrames + 1
    let newResolved := match s.resolved with | some r => some r | none => some s.framesBase64
    if p = total then
      { s with processedFrames := p, resolved := newResolved }
    else
      { s with processedFrames := p }
  | FrameOutcome.readError _ => s

/-- State at the start of extraction: empty array, counter 0, promise pending, temp
directory freshly created (lines 117–123), no frame files. -/
def initSamplerState : SamplerState :=
  { framesBase64 := []
    processedFrames := 0
    resolved := none
    tempDirPresent := true
    frameFiles := [] }

/-- Run the completion events of all scheduled extractions, in completion order. -/
def runCompletions (total : Nat) (events : List (Nat × FrameOutcome)) : SamplerState :=
  events.foldl (stepCompletion total) initSamplerState

/-- Observable outcome of a `processVideoFrames` call: the promise value (`none` when
the promise never resolves), how many per-timestamp extractions were started, and the
state of the temporary storage afterwards. -/
structure SampleOutput where
  resolved : Option (List String)
  extractionsStarted : Nat
  tempDirPresent : Bool
  frameFiles : List Nat
  deriving DecidableEq, Repr

/-- Model of `processVideoFrames` (lines 115–187): the temp directory is created at entry; on a
probe error or a missing/zero duration the promise resolves with `[]` (lines 126–138)
and no extraction is started; otherwise one extraction per computed timestamp is
started and the completion events are folded through `stepCompletion`. -/
def processVideoFrames (probe : Except String FfprobeMetadata)
    (events : List (Nat × FrameOutcome)) (maxFrames : Nat) : SampleOutput :=
  match probe with
  | Except.error _ =>
    { resolved := some [], extractionsStarted := 0, tempDirPresent := true, frameFiles := [] }
  | Except.ok metadata =>
    match metadata.format.duration with
    | none =>
      { resolved := some [], extractionsStarted := 0, tempDirPresent := true, frameFiles := [] }
    | some duration =>
      if duration = 0 then
        { resolved := some [], extractionsStarted := 0, tempDirPresent := true, frameFiles := [] }
      else
        let timestamps := computeTimestamps duration maxFrames
        let final := runCompletions timestamps.length events
        { resolved := final.resolved
          extractionsStarted := timestamps.length
          tempDirPresent := final.tempDirPresent
          frameFiles := final.frameFiles }

/-- The base64 string a completion event contributes to `framesBase64`, if any. -/
def successData (ev : Nat × FrameOutcome) : Option String :=
  match ev.2 with
  | FrameOutcome.success bytes => some (base64Encode bytes)
  | _ => none

/-- Whether a completion event is the logged-and-skipped read failure of line 173. -/
def isReadError (o : FrameOutcome) : Bool :=
  match o with
  | FrameOutcome.readError _ => true
  | _ => false

/-- Whether any completion event in the run is a read failure. -/
def hasReadError : List (Nat × FrameOutcome) → Bool
  | [] => false
  | ev :: t => isReadError ev.2 || hasReadError t

/-- Whether the last completion event of the run is a successful frame. -/
def lastIsSuccess : List (Nat × FrameOutcome) → Bool
  | [] => false
  | [ev] => (match ev.2 with | FrameOutcome.success _ => true | _ => false)
  | _ :: e2 :: t => lastIsSuccess (e2 :: t)

/-- Model of `extractTextFromPdf` (lines 104–113): the read-and-parse attempt either yields the
document text or throws; the catch turns the failure into an error-bearing string. -/
def extractTextFromPdf (parseResult : Except String String) : String :=
  match parseResult with
  | Except.ok data => data
  | Except.error e => "[Error membaca PDF: " ++ e ++ "]"

/-- The inline try/catch of the txt branch (lines 280–284): `fs.readFileSync(path,
utf-8)` or an error-bearing placeholder string. -/
def readTxtContent (readResult : Except String String) : String :=
  match readResult with
  | Except.ok s => s
  | Except.error e => "[Gagal membaca teks file: " ++ e ++ "]"

/-- Model of `encodeImageToBase64` (lines 94–102): base64 of the raw bytes, or `null` when the
read throws. -/
def encodeImageToBase64 (readResult : Option (List Nat)) : Option String :=
  match readResult with
  | some bytes => some (base64Encode bytes)
  | none => none

/-- JavaScript truthiness of the nullable string checked at line 288 (`if (encoded)`):
false for `null` and for the empty string. -/
def strTruthy : Option String → Bool
  | none => false
  | some s => s != ""

/-- One element of the `userContent` array sent to the model (lines 200–226). -/
inductive ContentPart where
  | text (s : String)
  | image_url (url : String)
  deriving DecidableEq, Repr

/-- The `contextData` object built by the chat handler (line 268): a `type` tag plus
the matching content shape. -/
inductive ContextData where
  | none
  | text (content : String)
  | image (content : String)
  | video_frames (content : List String)
  deriving DecidableEq, Repr

/-- Lines 200–226: the user text always first, then the context-derived parts; the
image part is added only when the content string is truthy, the video parts only when
the frame list is non-empty. -/
def buildUserContent (userText : String) (ctx : ContextData) : List ContentPart :=
  let base := [ContentPart.text userText]
  match ctx with
  | ContextData.none => base
  | ContextData.text c => base ++ [ContentPart.text ("\n\nISI DOKUMEN:\n" ++ c)]
  | ContextData.image c =>
    if c != "" then base ++ [ContentPart.image_url ("data:image/jpeg;base64," ++ c)]
    else base
  | ContextData.video_frames frames =>
    if frames.length > 0 then
      base ++ [ContentPart.text "Berikut adalah beberapa frame dari video yang diunggah user:"]
        ++ frames.map (fun f => ContentPart.image_url ("data:image/jpeg;base64," ++ f))
    else base

/-- The fixed warning returned when no AI client was initialized (line 193). -/
def aiNotConfiguredMsg : String :=
  "⚠️ Maaf, sistem AI belum terkonfigurasi dengan benar. Pastikan API Key telah diatur di environment variables."

/-- The user-facing marker prepended to the error of a failed network call (line 242). -/
def aiErrorMarker : String := "⚠️ Maaf, terjadi kesalahan saat menghubungi AI: "

/-- Result of `callAiApi`: the reply string, and whether the remote endpoint was
contacted at all. -/
structure AiCallResult where
  reply : String
  networkCalled : Bool
  deriving Repr

/-- Model of `callAiApi` (lines 191–244).  Here `client` is the nullable global `aiClient`;
`network` records what `aiClient.chat.completions.create` (with the fixed system
instruction, model, token bound and temperature) would yield on the composed user
content: the reply text, or the thrown error caught at line 240. -/
def callAiApi (client : Option Unit) (network : List ContentPart → Except String String)
    (userText : String) (ctx : ContextData) : AiCallResult :=
  match client with
  | none => { reply := aiNotConfiguredMsg, networkCalled := false }
  | some _ =>
    match network (buildUserContent userText ctx) with
    | Except.ok r => { reply := r, networkCalled := true }
    | Except.error e => { reply := aiErrorMarker ++ e, networkCalled := true }

/-- The `req.file` object as stored by multer: path on disk plus the client-declared name. -/
structure UploadedFile where
  path : String
  originalname : String
  deriving DecidableEq, Repr

/-- Everything the external calls of the chat handler depend on for one request:
the nullable AI client and its network behaviour, what reading/parsing the uploaded
file would yield for each media kind, the ffprobe result and completion events of a
video run, and whether `fs.unlinkSync` on the uploaded file succeeds. -/
structure Env where
  aiClient : Option Unit
  network : List ContentPart → Except String String
  readTxtFile : Except String String
  pdfParseResult : Except String String
  imageRead : Option (List Nat)
  videoProbe : Except String FfprobeMetadata
  videoEvents : List (Nat × FrameOutcome)
  unlinkUploadOk : Bool

/-- An HTTP response sent by the handler. -/
structure HttpResponse where
  status : Nat
  body : String
  deriving DecidableEq, Repr

/-- Outcome of one `/api/chat` request: the response (`none` when the handler awaits a
promise that never resolves and thus never responds), and whether the uploaded file is
still on storage afterwards (`false` when no file was uploaded). -/
structure HandlerResult where
  response : Option HttpResponse
  uploadOnDisk : Bool
  deriving DecidableEq, Repr

/-- Lines 307–317: the protected `fs.unlinkSync` (failure only logs a warning), then
the AI call and the 200 reply. -/
def afterProcess (env : Env) (message : String) (ctx : ContextData) : HandlerResult :=
  { response := some { status := 200, body := (callAiApi env.aiClient env.network message ctx).reply }
    uploadOnDisk := !env.unlinkUploadOk }

/-- Lines 291–293 and 301–303: `fs.unlinkSync(filePath)` outside any try/catch followed
by a 400 response; if the unlink throws, the outer catch (lines 319–325) answers 500
with the file still on disk. -/
def unprotectedAbort (env : Env) (errBody : String) : HandlerResult :=
  if env.unlinkUploadOk then
    { response := some { status := 400, body := errBody }, uploadOnDisk := false }
  else
    { response := some { status := 500, body := "Terjadi kesalahan pada server" }, uploadOnDisk := true }

/-- The `/api/chat` handler (lines 260–326): empty-message check, per-extension
dispatch of the uploaded file, upload deletion, AI call, JSON reply. -/
def handleChat (env : Env) (message : String) (file : Option UploadedFile) : HandlerResult :=
  if message = "" then
    { response := some { status := 400, body := "Pesan tidak boleh kosong" }
      uploadOnDisk := file.isSome }
  else
    match file with
    | none =>
      { response := some { status := 200, body := (callAiApi env.aiClient env.network message ContextData.none).reply }
        uploadOnDisk := false }
    | some f =>
      let ext := extOf f.originalname
      if ext = "pdf" then
        afterProcess env message (ContextData.text (extractTextFromPdf env.pdfParseResult))
      else if ext = "txt" then
        afterProcess env message (ContextData.text (readTxtContent env.readTxtFile))
      else if ext = "jpg" ∨ ext = "jpeg" ∨ ext = "png" then
        let encoded := encodeImageToBase64 env.imageRead
        if strTruthy encoded then
          afterProcess env message (ContextData.image (encoded.getD ""))
        else
          unprotectedAbort env "Gagal membaca gambar"
      else if ext = "mp4" ∨ ext = "mov" ∨ ext = "avi" then
        match (processVideoFrames env.videoProbe env.videoEvents 3).resolved with
        | none => { response := none, uploadOnDisk := true }
        | some frames =>
          if frames.length > 0 then
            afterProcess env message (ContextData.video_frames frames)
          else
            unprotectedAbort env "❌ Gagal membaca video"
      else
        afterProcess env message ContextData.none

/-- The branches of the handler whose upload deletion is the unprotected
`fs.unlinkSync` of line 292 or line 302: an untruthy image encoding, or a video
sampling that resolved with no frames. -/
@[reducible]
def hitsUnprotectedDelete (env : Env) (f : UploadedFile) : Prop :=
  ((extOf f.originalname = "jpg" ∨ extOf f.originalname = "jpeg" ∨ extOf f.originalname = "png")
      ∧ strTruthy (encodeImageToBase64 env.imageRead) = false)
  ∨ ((extOf f.originalname = "mp4" ∨ extOf f.originalname = "mov" ∨ extOf f.originalname = "avi")
      ∧ (processVideoFrames env.videoProbe env.videoEvents 3).resolved = some [])

/-- A network behaviour that always replies. -/
def okNetwork : List ContentPart → Except String String :=
  fun _ => Except.ok "Baik, ini analisanya."

/-- A network behaviour whose call throws. -/
def failingNetwork : List ContentPart → Except String String :=
  fun _ => Except.error "ECONNRESET"

/-- A request environment where every external call behaves. -/
def envBase : Env :=
  { aiClient := some ()
    network := okNetwork
    readTxtFile := Except.ok "catatan penjualan"
    pdfParseResult := Except.ok "laporan bulanan"
    imageRead := some [255, 216, 255]
    videoProbe := Except.ok ⟨⟨some 10⟩⟩
    videoEvents := [(0, FrameOutcome.success [1]), (1, FrameOutcome.success [2]),
                    (2, FrameOutcome.success [3])]
    unlinkUploadOk := true }

/-- Env `envBase` with an unreadable image. -/
def envImgFail : Env := { envBase with imageRead := none }

/-- Env `envBase` with an unreadable image and a failing upload deletion. -/
def envImgFailDelFail : Env := { envBase with imageRead := none, unlinkUploadOk := false }

/-- Env `envBase` with a pdf whose parse throws. -/
def envPdfErr : Env := { envBase with pdfParseResult := Except.error "bad xref table" }

/-- An uploaded pdf file. -/
def pdfFile : UploadedFile := { path := "uploads/3-laporan.pdf", originalname := "laporan.pdf" }

/-- An uploaded image file. -/
def imgFile : UploadedFile := { path := "uploads/2-struk.jpg", originalname := "struk.jpg" }

/-- An uploaded text file. -/
def txtFile : UploadedFile := { path := "uploads/1-nota.txt", originalname := "nota.txt" }

/-- A completion-event list with one failed extraction among two successes. -/
def eventsMixed : List (Nat × FrameOutcome) :=
  [(0, FrameOutcome.success [1, 2]), (1, FrameOutcome.extractError "kaputt"),
   (2, FrameOutcome.success [3, 4])]

/-- Folding the completion events of a run with no read failures: every event bumps the
counter, so the promise resolves at the last event with exactly the successful frames
(in completion order); the temp directory survives unless the last event is a success;
no frame file is left behind. -/
theorem foldCompletions_spec (total : Nat) :
    ∀ (evs : List (Nat × FrameOutcome)) (s : SamplerState),
      hasReadError evs = false →
      s.resolved = none →
      s.frameFiles = [] →
      s.processedFrames + evs.length = total →
      evs ≠ [] →
      (evs.foldl (stepCompletion total) s).framesBase64
          = s.framesBase64 ++ evs.filterMap successData
      ∧ (evs.foldl (stepCompletion total) s).resolved
          = some (s.framesBase64 ++ evs.filterMap successData)
      ∧ (evs.foldl (stepCompletion total) s).processedFrames = total
      ∧ (evs.foldl (stepCompletion total) s).tempDirPresent
          = (if lastIsSuccess evs then false else s.tempDirPresent)
      ∧ (evs.foldl (stepCompletion total) s).frameFiles = [] := by
  intro evs
  induction evs with
  | nil => intro s _ _ _ _ hne; exact absurd rfl hne
  | cons e t ih =>
    rintro ⟨fb, p, res, td, ff⟩ hnr hres hff htot _
    dsimp at hres hff htot
    subst hres; subst hff
    obtain ⟨i, o⟩ := e
    have hnr2 : isReadError o = false ∧ hasReadError t = false := by
      simp only [hasReadError] at hnr
      exact Bool.or_eq_false_iff.mp hnr
    cases t with
    | nil =>
      have hp : p + 1 = total := by simpa using htot
      cases o with
      | success bytes =>
        simp [stepCompletion, hp, successData, lastIsSuccess]
      | extractError m =>
        simp [stepCompletion, hp, successData, lastIsSuccess]
      | readError m => simp [isReadError] at hnr2
    | cons e2 t2 =>
      have hplt : p + 1 ≠ total := by
        have h2 : p + (t2.length + 2) = total := by simpa using htot
        omega
      cases o with
      | success bytes =>
        have step_eq : stepCompletion total ⟨fb, p, none, td, []⟩ (i, FrameOutcome.success bytes)
            = ⟨fb ++ [base64Encode bytes], p + 1, none, td, []⟩ := by
          simp [stepCompletion, hplt]
        have ihres := ih ⟨fb ++ [base64Encode bytes], p + 1, none, td, []⟩ hnr2.2 rfl rfl
          (by simp at htot ⊢; omega) (by simp)
        obtain ⟨h1, h2, h3, h4, h5⟩ := ihres
        rw [List.foldl_cons, step_eq]
        refine ⟨?_, ?_, h3, ?_, h5⟩
        · rw [h1]; simp [successData]
        · rw [h2]; simp [successData]
        · rw [h4]; simp [lastIsSuccess]
      | extractError m =>
        have step_eq : stepCompletion total ⟨fb, p, none, td, []⟩ (i, FrameOutcome.extractError m)
            = ⟨fb, p + 1, none, td, []⟩ := by
          simp [stepCompletion, hplt]
        have ihres := ih ⟨fb, p + 1, none, td, []⟩ hnr2.2 rfl rfl
          (by simp at htot ⊢; omega) (by simp)
        obtain ⟨h1, h2, h3, h4, h5⟩ := ihres
        rw [List.foldl_cons, step_eq]
        refine ⟨?_, ?_, h3, ?_, h5⟩
        · rw [h1]; simp [successData]
        · rw [h2]; simp [successData]
        · rw [h4]; simp [lastIsSuccess]
      | readError m => simp [isReadError] at hnr2

/-- Lemma: `computeTimestamps` always produces `maxFrames` timestamps. -/
theorem computeTimestamps_length (d : ℚ) (N : Nat) : (computeTimestamps d N).length = N := by
  rw [computeTimestamps, List.length_map, List.length_range]

/-- Unfolding `processVideoFrames` when the probe yields a non-zero duration. -/
theorem processVideoFrames_ok (d : ℚ) (N : Nat) (events : List (Nat × FrameOutcome))
    (hd : d ≠ 0) :
    processVideoFrames (Except.ok ⟨⟨some d⟩⟩) events N
      = { resolved := (runCompletions N events).resolved
          extractionsStarted := N
          tempDirPresent := (runCompletions N events).tempDirPresent
          frameFiles := (runCompletions N events).frameFiles } := by
  have hlen := computeTimestamps_length d N
  simp [processVideoFrames, hd, hlen]

/-- Claim C2 (code bug): a run in which the `end` event of one timestamp fires but the
frame file cannot be read never resolves — the catch at line 173 skips the
`processedFrames` increment, so the completion counter never reaches 3 and the promise
stays pending forever, although every timestamp has completed. -/
theorem frameSampler_never_resolves_on_read_error :
    (processVideoFrames (Except.ok ⟨⟨some 10⟩⟩)
        [(0, FrameOutcome.success [1]), (1, FrameOutcome.readError "ENOENT"),
         (2, FrameOutcome.success [2])] 3).resolved = none := by
  decide

/-- Claim C6: when the probe yields a usable duration and every one of the `N`
completion events is either a successful frame or an ffmpeg extraction error, the
promise resolves with exactly the successful frames (in completion order) — a failed
timestamp contributes nothing and does not abort its siblings — and the result length
is at most `N`. -/
theorem frameSampler_result_exactly_successes (d : ℚ) (N : Nat)
    (events : List (Nat × FrameOutcome))
    (hd : d ≠ 0) (hN : 1 ≤ N) (hlen : events.length = N)
    (hnr : hasReadError events = false) :
    (processVideoFrames (Except.ok ⟨⟨some d⟩⟩) events N).resolved
        = some (events.filterMap successData)
    ∧ (events.filterMap successData).length ≤ N := by
  have hne : events ≠ [] := by
    intro h; rw [h] at hlen; simp at hlen; omega
  have hfold := foldCompletions_spec N events initSamplerState hnr rfl rfl
    (by simp [initSamplerState, hlen]) hne
  rw [processVideoFrames_ok d N events hd]
  refine ⟨?_, ?_⟩
  · show (runCompletions N events).resolved = _
    rw [runCompletions, hfold.2.1]
    simp [initSamplerState]
  · calc (events.filterMap successData).length ≤ events.length :=
          List.length_filterMap_le _ _
      _ = N := hlen

/-- Witness for the C6 theorem: duration 10, three timestamps, the middle extraction
fails — the promise resolves with exactly the two successful frames. -/
theorem frameSampler_result_exactly_successes_witness :
    (processVideoFrames (Except.ok ⟨⟨some 10⟩⟩) eventsMixed 3).resolved
        = some (eventsMixed.filterMap successData)
    ∧ (eventsMixed.filterMap successData).length ≤ 3 :=
  frameSampler_result_exactly_successes 10 3 eventsMixed (by decide) (by decide)
    (by decide) (by decide)

/-- Claim C4 (amended): in a resolving run no frame file survives (each one is deleted
right after its base64 encoding), but the temp directory is removed only when the last
completion is a successful frame (`fs.rmdirSync` lives in the `end` branch alone);
when the probe fails the run resolves empty with the freshly created directory left in
place. -/
theorem frame_cleanup_and_tempDir (d : ℚ) (N : Nat)
    (events : List (Nat × FrameOutcome))
    (hd : d ≠ 0) (hN : 1 ≤ N) (hlen : events.length = N)
    (hnr : hasReadError events = false) :
    (processVideoFrames (Except.ok ⟨⟨some d⟩⟩) events N).frameFiles = []
    ∧ (processVideoFrames (Except.ok ⟨⟨some d⟩⟩) events N).tempDirPresent
        = !(lastIsSuccess events)
    ∧ ∀ msg, (processVideoFrames (Except.error msg) events N).resolved = some []
        ∧ (processVideoFrames (Except.error msg) events N).tempDirPresent = true := by
  have hne : events ≠ [] := by
    intro h; rw [h] at hlen; simp at hlen; omega
  have hfold := foldCompletions_spec N events initSamplerState hnr rfl rfl
    (by simp [initSamplerState, hlen]) hne
  rw [processVideoFrames_ok d N events hd]
  refine ⟨?_, ?_, ?_⟩
  · show (runCompletions N events).frameFiles = []
    rw [runCompletions]
    exact hfold.2.2.2.2
  · show (runCompletions N events).tempDirPresent = _
    rw [runCompletions, hfold.2.2.2.1]
    cases h : lastIsSuccess events <;> simp [initSamplerState]
  · intro msg
    exact ⟨rfl, rfl⟩

/-- Witness for the C4 theorem: the mixed run ends in a success, so the directory is
removed; a probe failure resolves empty with the directory still present. -/
theorem frame_cleanup_and_tempDir_witness :
    (processVideoFrames (Except.ok ⟨⟨some 10⟩⟩) eventsMixed 3).frameFiles = []
    ∧ (processVideoFrames (Except.ok ⟨⟨some 10⟩⟩) eventsMixed 3).tempDirPresent
        = !(lastIsSuccess eventsMixed)
    ∧ ∀ msg, (processVideoFrames (Except.error msg) eventsMixed 3).resolved = some []
        ∧ (processVideoFrames (Except.error msg) eventsMixed 3).tempDirPresent = true :=
  frame_cleanup_and_tempDir 10 3 eventsMixed (by decide) (by decide) (by decide) (by decide)

/-- Claim C4 counterexample: the sampler resolves (with the empty list) on a probe
failure, yet the temporary frame directory — created unconditionally at entry, lines
117–123 — is not removed on that path, so "the temporary frame directory is removed
upon resolution" fails. -/
theorem tempDir_survives_probe_failure_resolution :
    (processVideoFrames (Except.error "probe failed") [] 3).resolved = some []
    ∧ (processVideoFrames (Except.error "probe failed") [] 3).tempDirPresent = true :=
  ⟨rfl, rfl⟩

/-- Claim C7: for `N ≥ 1` and positive duration, the sampler computes exactly the
timestamps `duration * (i+1) / (N+1)` for `i < N`, and each lies strictly between 0 and
the duration. -/
theorem timestamps_formula_strictly_inside (N : Nat) (d : ℚ) (hN : 1 ≤ N) (hd : 0 < d) :
    (computeTimestamps d N).length = N
    ∧ (∀ i, i < N → (computeTimestamps d N).getD i 0 = d * ((i : ℚ) + 1) / ((N : ℚ) + 1))
    ∧ (∀ t, t ∈ computeTimestamps d N → 0 < t ∧ t < d) := by
  refine ⟨computeTimestamps_length d N, ?_, ?_⟩
  · intro i hi
    simp [computeTimestamps, List.getD_eq_getElem?_getD, List.getElem?_map,
      List.getElem?_range, hi]
  · intro t ht
    simp only [computeTimestamps, List.mem_map, List.mem_range] at ht
    obtain ⟨i, hi, rfl⟩ := ht
    have hN1 : (0 : ℚ) < (N : ℚ) + 1 := by positivity
    have hi1 : (0 : ℚ) < (i : ℚ) + 1 := by positivity
    constructor
    · exact div_pos (mul_pos hd hi1) hN1
    · rw [div_lt_iff₀ hN1]
      have hiN : (i : ℚ) + 1 < (N : ℚ) + 1 := by
        have hcast : (i : ℚ) < (N : ℚ) := by exact_mod_cast hi
        linarith
      exact mul_lt_mul_of_pos_left hiN hd

/-- Witness for the C7 theorem at duration 10 and three frames. -/
theorem timestamps_formula_strictly_inside_witness :
    (computeTimestamps 10 3).length = 3
    ∧ (∀ t, t ∈ computeTimestamps 10 3 → 0 < t ∧ t < 10) :=
  ⟨(timestamps_formula_strictly_inside 3 10 (by decide) (by norm_num)).1,
   (timestamps_formula_strictly_inside 3 10 (by decide) (by norm_num)).2.2⟩

/-- Claim C8: on a probe error, an absent duration, or a zero duration, the sampler
resolves with the empty sequence and starts no frame extraction at all. -/
theorem no_duration_no_extraction (probe : Except String FfprobeMetadata)
    (events : List (Nat × FrameOutcome)) (maxFrames : Nat)
    (h : (∃ e, probe = Except.error e)
        ∨ ∃ md, probe = Except.ok md
            ∧ (md.format.duration = none ∨ md.format.duration = some 0)) :
    (processVideoFrames probe events maxFrames).resolved = some []
    ∧ (processVideoFrames probe events maxFrames).extractionsStarted = 0 := by
  rcases h with ⟨e, rfl⟩ | ⟨md, rfl, hdur⟩
  · exact ⟨rfl, rfl⟩
  · obtain ⟨⟨dur⟩⟩ := md
    simp only [FfprobeMetadata.format, FfprobeFormat.duration] at hdur
    rcases hdur with rfl | rfl <;> simp [processVideoFrames]

/-- Witness for the C8 theorem: a probed duration of exactly zero. -/
theorem no_duration_no_extraction_witness :
    (processVideoFrames (Except.ok ⟨⟨some 0⟩⟩) eventsMixed 3).resolved = some []
    ∧ (processVideoFrames (Except.ok ⟨⟨some 0⟩⟩) eventsMixed 3).extractionsStarted = 0 :=
  no_duration_no_extraction (Except.ok ⟨⟨some 0⟩⟩) eventsMixed 3
    (Or.inr ⟨⟨⟨some 0⟩⟩, rfl, Or.inr rfl⟩)

/-- Claim C3 counterexample: two distinct requests (distinct uploaded video paths) use
the very same temporary directory and the very same frame file paths — `tempDir` is the
constant `uploads/temp_frames` and the frame names depend only on the index. -/
theorem frame_storage_shared_between_requests :
    ("uploads/7-a.mp4" : String) ≠ "uploads/8-b.mp4"
    ∧ tempDirFor "uploads/7-a.mp4" = tempDirFor "uploads/8-b.mp4"
    ∧ frameOutputPath "uploads/7-a.mp4" 0 = frameOutputPath "uploads/8-b.mp4" 0 :=
  ⟨by decide, rfl, rfl⟩

/-- Claim C3 (amended): frame storage is request-independent — every request extracts
into the single fixed directory `uploads/temp_frames` with fixed file names
`frame_<i>.jpg`, so frame files of concurrent requests can overwrite one another; only
uploaded-file names carry a collision-avoiding unique suffix. -/
theorem frame_storage_constant_across_requests (v1 v2 : String) (i : Nat) :
    tempDirFor v1 = "uploads/temp_frames"
    ∧ tempDirFor v1 = tempDirFor v2
    ∧ frameOutputPath v1 i = frameOutputPath v2 i :=
  ⟨rfl, rfl, rfl⟩

/-- Claim C10: the AI gateway is a total function into reply strings.  Without an
initialized client it returns the fixed warning and performs no network call; with a
client, a throwing network call is caught and mapped to a reply embedding the error
description, and the text of a successful call is returned as-is. -/
theorem aiGateway_total_failure_semantics
    (network : List ContentPart → Except String String)
    (userText : String) (ctx : ContextData) :
    callAiApi Option.none network userText ctx
        = { reply := aiNotConfiguredMsg, networkCalled := false }
    ∧ (∀ e, network (buildUserContent userText ctx) = Except.error e →
        callAiApi (some ()) network userText ctx
          = { reply := aiErrorMarker ++ e, networkCalled := true })
    ∧ (∀ r, network (buildUserContent userText ctx) = Except.ok r →
        callAiApi (some ()) network userText ctx
          = { reply := r, networkCalled := true }) := by
  refine ⟨rfl, ?_, ?_⟩
  · intro e he
    simp [callAiApi, he]
  · intro r hr
    simp [callAiApi, hr]

/-- Witness for the C10 theorem: a network call that throws resolves to the marked
reply string. -/
theorem aiGateway_total_failure_semantics_witness :
    callAiApi (some ()) failingNetwork "halo" ContextData.none
      = { reply := aiErrorMarker ++ "ECONNRESET", networkCalled := true } :=
  (aiGateway_total_failure_semantics failingNetwork "halo" ContextData.none).2.1
    "ECONNRESET" rfl

/-- Claim C9: pdf extraction returns the parsed text exactly or an error-embedding
string — never a thrown fault — and for pdf and txt uploads the handler always answers
200 with the AI reply built from that (possibly degraded) content, whatever the
read/parse outcome was. -/
theorem document_extraction_never_aborts (env : Env) (message : String) (f : UploadedFile)
    (hmsg : message ≠ "") :
    (∀ t, env.pdfParseResult = Except.ok t → extractTextFromPdf env.pdfParseResult = t)
    ∧ (∀ e, env.pdfParseResult = Except.error e →
        extractTextFromPdf env.pdfParseResult = "[Error membaca PDF: " ++ e ++ "]")
    ∧ (extOf f.originalname = "pdf" →
        (handleChat env message (some f)).response
          = some { status := 200
                   body := (callAiApi env.aiClient env.network message
                      (ContextData.text (extractTextFromPdf env.pdfParseResult))).reply })
    ∧ (extOf f.originalname = "txt" →
        (handleChat env message (some f)).response
          = some { status := 200
                   body := (callAiApi env.aiClient env.network message
                      (ContextData.text (readTxtContent env.readTxtFile))).reply }) := by
  refine ⟨?_, ?_, ?_, ?_⟩
  · intro t ht; rw [ht]; rfl
  · intro e he; rw [he]; rfl
  · intro hext
    simp [handleChat, hmsg, hext, afterProcess]
  · intro hext
    simp [handleChat, hmsg, hext, afterProcess]

/-- Witness for the C9 theorem: a pdf whose parse throws still yields a 200 reply. -/
theorem document_extraction_never_aborts_witness :
    (handleChat envPdfErr "cek dokumen" (some pdfFile)).response
      = some { status := 200
               body := (callAiApi envPdfErr.aiClient envPdfErr.network "cek dokumen"
                  (ContextData.text (extractTextFromPdf envPdfErr.pdfParseResult))).reply } :=
  (document_extraction_never_aborts envPdfErr "cek dokumen" pdfFile (by decide)).2.2.1
    (by decide)

/-- Claim C5 counterexample: with an unreadable image, the very same request answers
400 when the upload deletion succeeds but 500 — a server error — when the deletion
throws, because the `fs.unlinkSync` of line 292 sits outside any try/catch.  A failed
delete therefore does change the outcome of the request. -/
theorem unprotected_delete_turns_400_into_500 :
    (handleChat envImgFail "halo" (some imgFile)).response
        = some { status := 400, body := "Gagal membaca gambar" }
    ∧ (handleChat envImgFailDelFail "halo" (some imgFile)).response
        = some { status := 500, body := "Terjadi kesalahan pada server" } :=
  ⟨rfl, rfl⟩

/-- Claim C5 (amended): upload deletion is best-effort exactly on the branches that
proceed to the AI call (pdf, txt, readable image, video with frames, fall-through) —
there the delete sits in a try/catch that only logs, so the response is identical
whether the delete succeeds or fails; on the two abort branches (unreadable image,
frameless video) the unprotected delete escalates a deletion failure to a 500. -/
theorem delete_best_effort_on_processing_branches (env : Env) (message : String)
    (f : UploadedFile) (hmsg : message ≠ "")
    (habort : ¬ hitsUnprotectedDelete env f) :
    (handleChat { env with unlinkUploadOk := true } message (some f)).response
      = (handleChat { env with unlinkUploadOk := false } message (some f)).response := by
  by_cases hpdf : extOf f.originalname = "pdf"
  · simp [handleChat, hmsg, hpdf, afterProcess]
  by_cases htxt : extOf f.originalname = "txt"
  · simp [handleChat, hmsg, hpdf, htxt, afterProcess]
  by_cases himg : extOf f.originalname = "jpg" ∨ extOf f.originalname = "jpeg"
      ∨ extOf f.originalname = "png"
  · have htru : strTruthy (encodeImageToBase64 env.imageRead) = true := by
      cases h : strTruthy (encodeImageToBase64 env.imageRead) with
      | true => rfl
      | false => exact absurd (Or.inl ⟨himg, h⟩) habort
    simp [handleChat, hmsg, hpdf, htxt, himg, htru, afterProcess]
  by_cases hvid : extOf f.originalname = "mp4" ∨ extOf f.originalname = "mov"
      ∨ extOf f.originalname = "avi"
  · cases hres : (processVideoFrames env.videoProbe env.videoEvents 3).resolved with
    | none => simp [handleChat, hmsg, hpdf, htxt, himg, hvid, hres]
    | some frames =>
      cases frames with
      | nil => exact absurd (Or.inr ⟨hvid, hres⟩) habort
      | cons fr rest =>
        simp [handleChat, hmsg, hpdf, htxt, himg, hvid, hres, afterProcess]
  · simp [handleChat, hmsg, hpdf, htxt, himg, hvid, afterProcess]

/-- Witness for the C5 theorem: for a pdf upload the response does not depend on
whether the upload deletion succeeded. -/
theorem delete_best_effort_on_processing_branches_witness :
    (handleChat { envBase with unlinkUploadOk := true } "halo" (some pdfFile)).response
      = (handleChat { envBase with unlinkUploadOk := false } "halo" (some pdfFile)).response :=
  delete_best_effort_on_processing_branches envBase "halo" pdfFile (by decide) (by decide)

/-- Claim C1 counterexample: a request with an uploaded file but an empty message takes
the early 400 return of lines 264–266, which deletes nothing — the uploaded file stays
on storage, so temporary storage is not released on every exit path. -/
theorem upload_survives_empty_message_return :
    (handleChat envBase "" (some txtFile)).response
        = some { status := 400, body := "Pesan tidak boleh kosong" }
    ∧ (handleChat envBase "" (some txtFile)).uploadOnDisk = true :=
  ⟨rfl, rfl⟩

/-- Claim C1 (amended): the uploaded file is gone after every run that reaches the
file-processing dispatch and actually responds, provided the deletion call itself
succeeds; the exceptions are exactly the paths the counterexample and C2/C5 expose —
the empty-message early return, a hanging frame sampler (no response at all), and a
failing `fs.unlinkSync`. -/
theorem upload_deleted_on_completed_runs (env : Env) (message : String) (f : UploadedFile)
    (hmsg : message ≠ "") (hdel : env.unlinkUploadOk = true) :
    (handleChat env message (some f)).response.isSome = true →
    (handleChat env message (some f)).uploadOnDisk = false := by
  by_cases hpdf : extOf f.originalname = "pdf"
  · simp [handleChat, hmsg, hpdf, afterProcess, hdel]
  by_cases htxt : extOf f.originalname = "txt"
  · simp [handleChat, hmsg, hpdf, htxt, afterProcess, hdel]
  by_cases himg : extOf f.originalname = "jpg" ∨ extOf f.originalname = "jpeg"
      ∨ extOf f.originalname = "png"
  · cases htru : strTruthy (encodeImageToBase64 env.imageRead) with
    | true => simp [handleChat, hmsg, hpdf, htxt, himg, htru, afterProcess, hdel]
    | false =>
      simp [handleChat, hmsg, hpdf, htxt, himg, htru, unprotectedAbort, hdel]
  by_cases hvid : extOf f.originalname = "mp4" ∨ extOf f.originalname = "mov"
      ∨ extOf f.originalname = "avi"
  · cases hres : (processVideoFrames env.videoProbe env.videoEvents 3).resolved with
    | none => simp [handleChat, hmsg, hpdf, htxt, himg, hvid, hres]
    | some frames =>
      cases frames with
      | nil => simp [handleChat, hmsg, hpdf, htxt, himg, hvid, hres, unprotectedAbort, hdel]
      | cons fr rest =>
        simp [handleChat, hmsg, hpdf, htxt, himg, hvid, hres, afterProcess, hdel]
  · simp [handleChat, hmsg, hpdf, htxt, himg, hvid, afterProcess, hdel]

/-- Witness for the C1 theorem: a completed pdf run leaves no uploaded file behind. -/
theorem upload_deleted_on_completed_runs_witness :
    (handleChat envBase "halo" (some pdfFile)).uploadOnDisk = false :=
  upload_deleted_on_completed_runs envBase "halo" pdfFile (by decide) rfl (by decide)
